import Mathlib

/-!
Verification development for the Signal Aggregation & Risk-Gated Decision
Engine of an automated trading system, together with two dashboard
components (`DecisionLog` and `TradingControls`).

Numeric quantities are modelled as rationals, so every arithmetic identity
below is exact; a sum that equals 1 exactly is in particular within any
floating tolerance.
-/

namespace TradingBot

/-- Trade direction of a signal or decision. -/
inductive Direction
  | Buy
  | Sell
  | Neutral
  deriving DecidableEq, Repr

/-- Signal source. -/
inductive Source
  | Technical
  | Sentiment
  | AIReasoning
  deriving DecidableEq, Repr

/-- Modelled from the spec: the configured base weights of the three signal
sources (technical 0.40, sentiment 0.30, AI-reasoning 0.30); the aggregator
implementation is not part of the provided sources, only its documentation. -/
def baseWeight : Source → ℚ
  | .Technical => 40 / 100
  | .Sentiment => 30 / 100
  | .AIReasoning => 30 / 100

/-- One normalized signal reading (direction plus strength in [0,1]). -/
structure Reading where
  direction : Direction
  strength : ℚ
  deriving DecidableEq, Repr

/-- Aggregator input: an optional reading per source (`none` models a source
that failed to produce a reading and was dropped). -/
structure AggInput where
  technical : Option Reading
  sentiment : Option Reading
  ai : Option Reading
  deriving DecidableEq, Repr

/-- Total base weight of the sources present in a subset, the subset given by
one Boolean per source. -/
def totW (t s a : Bool) : ℚ :=
  (if t then baseWeight .Technical else 0) +
    (if s then baseWeight .Sentiment else 0) +
    (if a then baseWeight .AIReasoning else 0)

/-- Modelled from the spec: renormalized weight of a surviving source when the
surviving subset is given by the three Booleans (base weight divided by the
total base weight of the subset). -/
def renormWeight (t s a : Bool) (src : Source) : ℚ :=
  baseWeight src / totW t s a

/-- Sum of the renormalized weights over the surviving sources of a subset. -/
def renormSum (t s a : Bool) : ℚ :=
  (if t then renormWeight t s a .Technical else 0) +
    (if s then renormWeight t s a .Sentiment else 0) +
    (if a then renormWeight t s a .AIReasoning else 0)

/-- Numeric vote of a direction: Buy = +1, Sell = -1, Neutral = 0. -/
def dirSign : Direction → ℚ
  | .Buy => 1
  | .Sell => -1
  | .Neutral => 0

/-- Neutral band half-width for the weighted direction vote. -/
def epsilon : ℚ := 5 / 100

/-- Weighted-strength contribution of one optional reading. -/
def contrib (w : ℚ) : Option Reading → ℚ
  | none => 0
  | some r => w * r.strength

/-- Weighted directional-vote contribution of one optional reading. -/
def voteContrib (w : ℚ) : Option Reading → ℚ
  | none => 0
  | some r => w * r.strength * dirSign r.direction

/-- Modelled from the spec: aggregated confidence, the sum of renormalized
weight times strength over the surviving sources. -/
def confidenceOf (inp : AggInput) : ℚ :=
  contrib (renormWeight inp.technical.isSome inp.sentiment.isSome inp.ai.isSome .Technical)
      inp.technical +
    contrib (renormWeight inp.technical.isSome inp.sentiment.isSome inp.ai.isSome .Sentiment)
      inp.sentiment +
    contrib (renormWeight inp.technical.isSome inp.sentiment.isSome inp.ai.isSome .AIReasoning)
      inp.ai

/-- Modelled from the spec: the weighted direction vote, each surviving source
contributing its renormalized weight times strength times direction sign. -/
def voteOf (inp : AggInput) : ℚ :=
  voteContrib (renormWeight inp.technical.isSome inp.sentiment.isSome inp.ai.isSome .Technical)
      inp.technical +
    voteContrib (renormWeight inp.technical.isSome inp.sentiment.isSome inp.ai.isSome .Sentiment)
      inp.sentiment +
    voteContrib (renormWeight inp.technical.isSome inp.sentiment.isSome inp.ai.isSome .AIReasoning)
      inp.ai

/-- An aggregated trading decision for one symbol. -/
structure Decision where
  direction : Direction
  confidence : ℚ
  summary : String
  deriving DecidableEq, Repr

/-- Modelled from the spec: the signal aggregator.  If every source failed it
abstains with a Neutral zero-confidence decision; otherwise confidence is the
renormalized weighted mean of strengths and the direction is picked by the
sign of the weighted vote, with votes within the epsilon band resolving to
Neutral. -/
def aggregate (inp : AggInput) : Decision :=
  if inp.technical = none ∧ inp.sentiment = none ∧ inp.ai = none then
    { direction := .Neutral, confidence := 0, summary := "no signal sources available" }
  else
    let v := voteOf inp
    { direction :=
        if epsilon < v then .Buy else if v < -epsilon then .Sell else .Neutral,
      confidence := confidenceOf inp,
      summary := "aggregated signal" }

/-- Process-wide trading state, toggled only by the external control surface. -/
inductive TradingState
  | Active
  | Paused
  deriving DecidableEq, Repr

/-- Point-in-time account snapshot consumed by the risk gate. -/
structure AccountSnapshot where
  balance : ℚ
  equity : ℚ
  freeMargin : ℚ
  openPositionsCount : ℕ
  dailyPnL : ℚ
  dailyPnLPercent : ℚ
  currentDrawdownPercent : ℚ
  deriving DecidableEq, Repr

/-- Risk policy configuration, read-only to the engine.  The drawdown
high-water mark is policy-configurable and distinct from the daily-loss
limit. -/
structure RiskPolicy where
  maxPositions : ℕ
  riskPerTrade : ℚ
  maxDailyLoss : ℚ
  aiConfidenceThreshold : ℚ
  drawdownLimit : ℚ
  deriving DecidableEq, Repr

/-- Trade proposal attached to a decision by the technical-analysis
collaborator: stop-loss distance, pip value, and the margin consumed per lot
(used by the margin-sufficiency check). -/
structure TradeProposal where
  stopLossDistance : ℚ
  pipValue : ℚ
  marginPerLot : ℚ
  deriving DecidableEq, Repr

/-- Outcome of gating one decision. -/
structure RiskDecision where
  approved : Bool
  lotSize : Option ℚ
  reasons : List String
  deriving DecidableEq, Repr

/-- Modelled from the spec: deterministic position sizing,
equity times risk-per-trade divided by stop-loss distance times pip value. -/
def lotSizeOf (snapshot : AccountSnapshot) (policy : RiskPolicy)
    (prop : TradeProposal) : ℚ :=
  snapshot.equity * policy.riskPerTrade / (prop.stopLossDistance * prop.pipValue)

/-- Modelled from the spec: the reasons of every failing check among checks
2-7 of the risk gate, accumulated in the gate's fixed evaluation order
(confidence, direction, position limit, daily loss, drawdown, margin).
`reserved` is the in-memory count of positions already approved earlier in
the same tick; it is added to the snapshot's open-position count for the
position-limit check. -/
def failedChecks (decision : Decision) (snapshot : AccountSnapshot)
    (policy : RiskPolicy) (prop : TradeProposal) (reserved : ℕ) : List String :=
  (if policy.aiConfidenceThreshold ≤ decision.confidence then []
    else ["confidence below threshold"]) ++
  ((if decision.direction ≠ Direction.Neutral then []
    else ["no directional signal"]) ++
  ((if snapshot.openPositionsCount + reserved < policy.maxPositions then []
    else ["position limit reached"]) ++
  ((if -policy.maxDailyLoss < snapshot.dailyPnLPercent then []
    else ["daily loss limit hit"]) ++
  ((if snapshot.currentDrawdownPercent ≤ policy.drawdownLimit then []
    else ["drawdown protection"]) ++
  (if lotSizeOf snapshot policy prop * prop.marginPerLot ≤ snapshot.freeMargin then []
    else ["insufficient margin"])))))

/-- Modelled from the spec: the risk gate.  Check 1 (trading state) is a hard
stop that short-circuits before any other check; otherwise the remaining
checks run in the fixed order of `failedChecks`, the decision is approved
with the computed lot size exactly when no check fails, and a rejection
carries the accumulated reasons. -/
def evaluate (state : TradingState) (decision : Decision)
    (snapshot : AccountSnapshot) (policy : RiskPolicy) (prop : TradeProposal)
    (reserved : ℕ) : RiskDecision :=
  if state = TradingState.Paused then
    { approved := false, lotSize := none, reasons := ["trading paused"] }
  else if failedChecks decision snapshot policy prop reserved = [] then
    { approved := true, lotSize := some (lotSizeOf snapshot policy prop), reasons := [] }
  else
    { approved := false, lotSize := none,
      reasons := failedChecks decision snapshot policy prop reserved }

/-- The fixed order in which the risk gate's rejection reasons can appear. -/
def checkOrder : List String :=
  ["trading paused", "confidence below threshold", "no directional signal",
    "position limit reached", "daily loss limit hit", "drawdown protection",
    "insufficient margin"]

/-- Modelled from the spec: sequential gating of the symbols of one tick,
threading the in-memory reservation count; an approval increments the count
for all later symbols of the same tick. -/
def gateTickAux (state : TradingState) (snapshot : AccountSnapshot)
    (policy : RiskPolicy) :
    List (Decision × TradeProposal) → ℕ → List RiskDecision
  | [], _ => []
  | (d, p) :: rest, reserved =>
    let r := evaluate state d snapshot policy p reserved
    r :: gateTickAux state snapshot policy rest
      (reserved + if r.approved then 1 else 0)

/-- Gate all symbols of one tick, starting with an empty reservation count. -/
def gateTick (state : TradingState) (snapshot : AccountSnapshot)
    (policy : RiskPolicy) (inputs : List (Decision × TradeProposal)) :
    List RiskDecision :=
  gateTickAux state snapshot policy inputs 0

/-- A decision-and-proposal pair that passes every risk-gate check other than
the trading-state and position-limit checks. -/
def Eligible (snapshot : AccountSnapshot) (policy : RiskPolicy)
    (dp : Decision × TradeProposal) : Prop :=
  policy.aiConfidenceThreshold ≤ dp.1.confidence ∧
    dp.1.direction ≠ Direction.Neutral ∧
    -policy.maxDailyLoss < snapshot.dailyPnLPercent ∧
    snapshot.currentDrawdownPercent ≤ policy.drawdownLimit ∧
    lotSizeOf snapshot policy dp.2 * dp.2.marginPerLot ≤ snapshot.freeMargin

instance (snapshot : AccountSnapshot) (policy : RiskPolicy)
    (dp : Decision × TradeProposal) : Decidable (Eligible snapshot policy dp) := by
  unfold Eligible
  infer_instance

/-- Per-cycle phase of the scan cycle controller.  `Gating k` records that
`k` symbols of the current cycle have already been gated. -/
inductive Phase
  | Idle
  | Scanning
  | Gating (done : ℕ)
  | Dispatching
  deriving DecidableEq, Repr

/-- Events driving the controller: an internal advance (the tick timer at
Idle, or completion of the current stage otherwise), and the external stop
and start commands, which write the trading-state cell. -/
inductive Event
  | Advance
  | StopCmd
  | StartCmd
  deriving DecidableEq, Repr

/-- Controller state: the per-cycle phase plus the externally owned
trading-state cell. -/
structure Ctrl where
  phase : Phase
  trading : TradingState
  deriving DecidableEq, Repr

/-- Modelled from the spec: one step of the scan cycle controller for a
configured symbol count `numSymbols`.  Stop and start commands only write the
trading-state cell; the cell is read solely at the Idle-to-Scanning boundary,
so an in-flight cycle advances through Scanning, per-symbol Gating and
Dispatching back to Idle regardless of the cell's value. -/
def step (numSymbols : ℕ) (c : Ctrl) : Event → Ctrl
  | .StopCmd => { c with trading := .Paused }
  | .StartCmd => { c with trading := .Active }
  | .Advance =>
    match c.phase with
    | .Idle => if c.trading = .Active then { c with phase := .Scanning } else c
    | .Scanning => { c with phase := .Gating 0 }
    | .Gating k =>
      if k + 1 < numSymbols then { c with phase := .Gating (k + 1) }
      else { c with phase := .Dispatching }
    | .Dispatching => { c with phase := .Idle }

/-- Number of advances still needed to finish the current cycle. -/
def phaseMeasure (numSymbols : ℕ) : Phase → ℕ
  | .Idle => 0
  | .Scanning => numSymbols + 3
  | .Gating k => numSymbols - k + 2
  | .Dispatching => 1

/-- Dashboard payload attached to a pushed update (the fields the
`DecisionLog` component reads; absent fields model absent JSON keys). -/
structure WsPayload where
  symbol : Option String
  final_signal : Option String
  order_type : Option String
  volume : Option String
  scanKeys : List String
  reasoning_steps : Option (List String)
  deriving DecidableEq, Repr

/-- One pushed update as seen by the dashboard (`wsData`); `type` is absent
or a string, `data` is an optional payload. -/
structure WsData where
  type : Option String
  data : Option WsPayload
  deriving DecidableEq, Repr

/-- One entry of the dashboard decision log (the wall-clock timestamp set by
the component is real time and is not modelled). -/
structure LogEntry where
  type : String
  message : String
  data : Option WsPayload
  deriving DecidableEq, Repr

/-- JavaScript string rendering of an optional field inside a template
literal: an absent value renders as "undefined". -/
def optField (o : Option String) : String := o.getD "undefined"

/-- The `wsData.type || 'info'` default: an absent or empty (falsy) type
string becomes "info". -/
def typeOrInfo (d : WsData) : String :=
  match d.type with
  | none => "info"
  | some t => if t = "" then "info" else t

/-- The `getLogMessage` helper of the `DecisionLog` component. -/
def getLogMessage (d : WsData) : String :=
  match d.type with
  | some "analysis" =>
    "Analysis complete for " ++ optField (d.data.bind (fun p => p.symbol)) ++
      ": " ++ optField (d.data.bind (fun p => p.final_signal))
  | some "trade" =>
    "Trade executed: " ++ optField (d.data.bind (fun p => p.symbol)) ++ " " ++
      optField (d.data.bind (fun p => p.order_type)) ++ " " ++
      optField (d.data.bind (fun p => p.volume)) ++ " lots"
  | some "market_scan" =>
    "Market scan completed for " ++
      String.intercalate ", " ((d.data.map (fun p => p.scanKeys)).getD [])
  | _ => "Update received"

/-- The log entry the `DecisionLog` effect builds from one pushed update. -/
def mkEntry (d : WsData) : LogEntry :=
  { type := typeOrInfo d, message := getLogMessage d, data := d.data }

/-- The `DecisionLog` update effect: a null `wsData` leaves the log alone;
otherwise the new entry is prepended and the list truncated to the first 50
entries. -/
def updateLogs (wsData : Option WsData) (logs : List LogEntry) : List LogEntry :=
  match wsData with
  | none => logs
  | some d => (mkEntry d :: logs).take 50

/-- Trading status object polled by the dashboard (`tradingStatus`); the
component reads only `is_active`. -/
structure TradingStatus where
  is_active : Bool
  deriving DecidableEq, Repr

/-- Endpoint selection of the `TradingControls` start/stop handler:
`tradingStatus?.is_active ? '/trading/stop' : '/trading/start'`, where a null
status makes the optional chain undefined, hence falsy. -/
def handleStartStopEndpoint (tradingStatus : Option TradingStatus) : String :=
  match tradingStatus with
  | some st => if st.is_active then "/trading/stop" else "/trading/start"
  | none => "/trading/start"

/-- C1: for every non-empty subset of the three signal sources, the
aggregator's renormalized weights for the surviving sources sum to exactly 1
(hence within any floating tolerance), including for the subset consisting of
the technical and AI sources. -/
theorem renorm_weights_sum_one :
    (∀ t s a : Bool, (t || s || a) = true → renormSum t s a = 1) ∧
      renormSum true false true = 1 := by
  constructor
  · intro t s a h
    cases t <;> cases s <;> cases a <;>
      first
        | exact absurd h (by decide)
        | norm_num [renormSum, renormWeight, totW, baseWeight]
  · norm_num [renormSum, renormWeight, totW, baseWeight]

/-- Witness for C1 at the subset consisting of the technical and AI
sources. -/
theorem renorm_weights_sum_one_witness :
    (true || false || true) = true ∧ renormSum true false true = 1 :=
  ⟨by decide, renorm_weights_sum_one.1 true false true (by decide)⟩

/-- Helper: an aggregator input with every source absent has weighted vote
zero. -/
theorem voteOf_all_none (inp : AggInput) (h1 : inp.technical = none)
    (h2 : inp.sentiment = none) (h3 : inp.ai = none) : voteOf inp = 0 := by
  cases inp with
  | mk t s a =>
    simp only at h1 h2 h3
    subst h1; subst h2; subst h3
    simp [voteOf, voteContrib]

/-- Helper: the aggregator on a non-abstaining input. -/
theorem aggregate_of_present (inp : AggInput)
    (h : ¬(inp.technical = none ∧ inp.sentiment = none ∧ inp.ai = none)) :
    aggregate inp =
      { direction :=
          if epsilon < voteOf inp then .Buy
          else if voteOf inp < -epsilon then .Sell
          else .Neutral,
        confidence := confidenceOf inp,
        summary := "aggregated signal" } := by
  simp only [aggregate, if_neg h]

/-- Helper: the direction the aggregator picks on a non-abstaining input. -/
theorem aggregate_direction_of_present (inp : AggInput)
    (h : ¬(inp.technical = none ∧ inp.sentiment = none ∧ inp.ai = none)) :
    (aggregate inp).direction =
      if epsilon < voteOf inp then .Buy
      else if voteOf inp < -epsilon then .Sell
      else .Neutral := by
  rw [aggregate_of_present inp h]

/-- C7: on technical = Buy at strength 0.8, sentiment = Sell at strength 0.6
and AI = Buy at strength 0.7, the aggregator yields confidence 0.71 and
direction Buy via the weighted vote 0.35; in general a weighted vote within
plus-or-minus 0.05 of zero makes the direction Neutral and otherwise the sign
of the vote picks Buy or Sell. -/
theorem aggregate_scenario_and_vote_sign :
    (aggregate
        { technical := some { direction := .Buy, strength := 8/10 },
          sentiment := some { direction := .Sell, strength := 6/10 },
          ai := some { direction := .Buy, strength := 7/10 } } =
      { direction := .Buy, confidence := 71/100, summary := "aggregated signal" } ∧
      voteOf
        { technical := some { direction := .Buy, strength := 8/10 },
          sentiment := some { direction := .Sell, strength := 6/10 },
          ai := some { direction := .Buy, strength := 7/10 } } = 35/100) ∧
    ∀ inp : AggInput,
      (-epsilon ≤ voteOf inp ∧ voteOf inp ≤ epsilon →
        (aggregate inp).direction = .Neutral) ∧
      (epsilon < voteOf inp → (aggregate inp).direction = .Buy) ∧
      (voteOf inp < -epsilon → (aggregate inp).direction = .Sell) := by
  constructor
  · have hv : voteOf
        { technical := some { direction := .Buy, strength := 8/10 },
          sentiment := some { direction := .Sell, strength := 6/10 },
          ai := some { direction := .Buy, strength := 7/10 } } = 35/100 := by
      norm_num [voteOf, voteContrib, renormWeight, totW, baseWeight, dirSign]
    have hc : confidenceOf
        { technical := some { direction := .Buy, strength := 8/10 },
          sentiment := some { direction := .Sell, strength := 6/10 },
          ai := some { direction := .Buy, strength := 7/10 } } = 71/100 := by
      norm_num [confidenceOf, contrib, renormWeight, totW, baseWeight]
    refine ⟨?_, hv⟩
    rw [aggregate_of_present _ (by simp), hv, hc,
      if_pos (by norm_num [epsilon] : epsilon < (35:ℚ)/100)]
  · intro inp
    by_cases habs : inp.technical = none ∧ inp.sentiment = none ∧ inp.ai = none
    · obtain ⟨h1, h2, h3⟩ := habs
      have hv : voteOf inp = 0 := voteOf_all_none inp h1 h2 h3
      have hdir : (aggregate inp).direction = .Neutral := by
        simp [aggregate, h1, h2, h3]
      refine ⟨fun _ => hdir, fun hb => ?_, fun hs => ?_⟩
      · rw [hv] at hb
        exact absurd hb (by norm_num [epsilon])
      · rw [hv] at hs
        exact absurd hs (by norm_num [epsilon])
    · have hd := aggregate_direction_of_present inp habs
      have heps : (0:ℚ) < epsilon := by norm_num [epsilon]
      refine ⟨?_, ?_, ?_⟩
      · rintro ⟨hl, hr⟩
        rw [hd, if_neg (not_lt.mpr hr), if_neg (not_lt.mpr hl)]
      · intro hb
        rw [hd, if_pos hb]
      · intro hs
        have hnb : ¬ epsilon < voteOf inp := by linarith
        rw [hd, if_neg hnb, if_pos hs]

/-- Witness for C7's general vote-sign part at a small concrete input whose
vote lies inside the neutral band. -/
theorem aggregate_scenario_and_vote_sign_witness :
    (aggregate
        { technical := some { direction := .Buy, strength := 4/100 },
          sentiment := none, ai := none }).direction = .Neutral :=
  (aggregate_scenario_and_vote_sign.2
    { technical := some { direction := .Buy, strength := 4/100 },
      sentiment := none, ai := none }).1
    (by norm_num [voteOf, voteContrib, renormWeight, totW, baseWeight, dirSign, epsilon])

/-- C9: every pushed dashboard update with non-null data prepends exactly one
new log entry and truncates the list to its first 50 entries, so the log
holds at most 50 entries, newest first, and a null update leaves the log
unchanged. -/
theorem decisionLog_prepend_truncate :
    ∀ (d : WsData) (logs : List LogEntry),
      updateLogs (some d) logs = mkEntry d :: logs.take 49 ∧
      (updateLogs (some d) logs).length ≤ 50 ∧
      (updateLogs (some d) logs).head? = some (mkEntry d) ∧
      updateLogs none logs = logs := by
  intro d logs
  refine ⟨rfl, ?_, rfl, rfl⟩
  · simp only [updateLogs, List.length_take]
    exact min_le_left _ _

/-- C10: the dashboard start/stop handler posts to the stop endpoint exactly
when the polled status object is present with a truthy `is_active`, and to
the start endpoint in every other case, including a null status. -/
theorem tradingControls_endpoint :
    ∀ st : Option TradingStatus,
      (handleStartStopEndpoint st = "/trading/stop" ↔
        st = some { is_active := true }) ∧
      (handleStartStopEndpoint st = "/trading/start" ↔
        st ≠ some { is_active := true }) := by
  intro st
  cases st with
  | none => decide
  | some s =>
    cases s with
    | mk b => cases b <;> decide

/-- Helper: an if-then-else segment followed by a sublist is a sublist of the
target list extended with the segment's reason. -/
theorem ite_seg_sublist (c : Prop) [Decidable c] (s : String)
    (l1 l2 : List String) (h : List.Sublist l1 l2) :
    List.Sublist ((if c then [] else [s]) ++ l1) (s :: l2) := by
  split_ifs
  · simpa using List.Sublist.cons s h
  · simpa using List.Sublist.cons₂ s h

/-- Helper: a single if-then-else segment is a sublist of its singleton. -/
theorem ite_seg_sublist_single (c : Prop) [Decidable c] (s : String) :
    List.Sublist (if c then [] else [s]) [s] := by
  split_ifs
  · exact List.nil_sublist _
  · exact List.Sublist.refl _

/-- Helper: the accumulated reasons of the risk-gate checks 2-7 always form a
sublist of the fixed check order. -/
theorem failedChecks_sublist (decision : Decision) (snapshot : AccountSnapshot)
    (policy : RiskPolicy) (prop : TradeProposal) (reserved : ℕ) :
    List.Sublist (failedChecks decision snapshot policy prop reserved)
      ["confidence below threshold", "no directional signal",
        "position limit reached", "daily loss limit hit", "drawdown protection",
        "insufficient margin"] := by
  unfold failedChecks
  exact ite_seg_sublist _ _ _ _ (ite_seg_sublist _ _ _ _ (ite_seg_sublist _ _ _ _
    (ite_seg_sublist _ _ _ _ (ite_seg_sublist _ _ _ _
      (ite_seg_sublist_single _ _)))))

/-- Helper: the gate on a paused trading state. -/
theorem evaluate_paused (decision : Decision) (snapshot : AccountSnapshot)
    (policy : RiskPolicy) (prop : TradeProposal) (reserved : ℕ) :
    evaluate .Paused decision snapshot policy prop reserved =
      { approved := false, lotSize := none, reasons := ["trading paused"] } := rfl

/-- Helper: on an active trading state the gate's reasons are exactly the
accumulated failing checks. -/
theorem evaluate_active_reasons (decision : Decision) (snapshot : AccountSnapshot)
    (policy : RiskPolicy) (prop : TradeProposal) (reserved : ℕ) :
    (evaluate .Active decision snapshot policy prop reserved).reasons =
      failedChecks decision snapshot policy prop reserved := by
  unfold evaluate
  rw [if_neg (by decide : ¬ (TradingState.Active = TradingState.Paused))]
  by_cases he : failedChecks decision snapshot policy prop reserved = []
  · rw [if_pos he]
    exact he.symm
  · rw [if_neg he]

/-- Helper: on an active trading state the gate approves exactly when no
check fails. -/
theorem evaluate_active_approved (decision : Decision) (snapshot : AccountSnapshot)
    (policy : RiskPolicy) (prop : TradeProposal) (reserved : ℕ) :
    (evaluate .Active decision snapshot policy prop reserved).approved = true ↔
      failedChecks decision snapshot policy prop reserved = [] := by
  unfold evaluate
  rw [if_neg (by decide : ¬ (TradingState.Active = TradingState.Paused))]
  by_cases he : failedChecks decision snapshot policy prop reserved = []
  · rw [if_pos he]
    simpa using he
  · rw [if_neg he]
    simpa using he

/-- C3: every reason list the risk gate can produce respects the fixed check
order of §4.3, and whenever the trading state is Paused the gate rejects with
the single reason "trading paused" for every decision, snapshot and policy —
in particular the confidence check is never reached and its reason never
appears. -/
theorem riskGate_order_and_paused :
    ∀ (state : TradingState) (decision : Decision) (snapshot : AccountSnapshot)
      (policy : RiskPolicy) (prop : TradeProposal) (reserved : ℕ),
      List.Sublist (evaluate state decision snapshot policy prop reserved).reasons
        checkOrder ∧
      (state = .Paused →
        evaluate state decision snapshot policy prop reserved =
          { approved := false, lotSize := none, reasons := ["trading paused"] }) := by
  intro state decision snapshot policy prop reserved
  constructor
  · cases state with
    | Paused =>
      rw [evaluate_paused]
      exact List.Sublist.cons₂ _ (List.nil_sublist _)
    | Active =>
      rw [evaluate_active_reasons]
      exact List.Sublist.cons _ (failedChecks_sublist decision snapshot policy prop reserved)
  · intro h
    subst h
    exact evaluate_paused decision snapshot policy prop reserved

/-- Witness for C3 at a paused state with a high-confidence decision: the
lone reason is "trading paused", not a confidence rejection. -/
theorem riskGate_order_and_paused_witness :
    evaluate .Paused { direction := .Buy, confidence := 9/10, summary := "s" }
        { balance := 10000, equity := 10000, freeMargin := 100000,
          openPositionsCount := 0, dailyPnL := 0, dailyPnLPercent := 0,
          currentDrawdownPercent := 0 }
        { maxPositions := 3, riskPerTrade := 2/100, maxDailyLoss := 5/100,
          aiConfidenceThreshold := 65/100, drawdownLimit := 10/100 }
        { stopLossDistance := 50, pipValue := 10, marginPerLot := 100 } 0 =
      { approved := false, lotSize := none, reasons := ["trading paused"] } :=
  (riskGate_order_and_paused .Paused
    { direction := .Buy, confidence := 9/10, summary := "s" }
    { balance := 10000, equity := 10000, freeMargin := 100000,
      openPositionsCount := 0, dailyPnL := 0, dailyPnLPercent := 0,
      currentDrawdownPercent := 0 }
    { maxPositions := 3, riskPerTrade := 2/100, maxDailyLoss := 5/100,
      aiConfidenceThreshold := 65/100, drawdownLimit := 10/100 }
    { stopLossDistance := 50, pipValue := 10, marginPerLot := 100 } 0).2 rfl

/-- Helper: the daily-loss reason appears among the failing checks exactly
when the snapshot's daily P&L percentage is not strictly above the negated
daily-loss limit. -/
theorem mem_failedChecks_daily_loss (decision : Decision)
    (snapshot : AccountSnapshot) (policy : RiskPolicy) (prop : TradeProposal)
    (reserved : ℕ) :
    "daily loss limit hit" ∈ failedChecks decision snapshot policy prop reserved ↔
      ¬ (-policy.maxDailyLoss < snapshot.dailyPnLPercent) := by
  unfold failedChecks
  split_ifs <;> simp_all

/-- C4: on an active trading state the risk gate records the reason
"daily loss limit hit" exactly when the snapshot's daily P&L percentage is
not strictly greater than the negated daily-loss limit; in particular with a
daily P&L of -6% against a 5% limit the gate rejects every decision,
regardless of its confidence, and records that reason. -/
theorem riskGate_daily_loss :
    ∀ (decision : Decision) (snapshot : AccountSnapshot) (policy : RiskPolicy)
      (prop : TradeProposal) (reserved : ℕ),
      ("daily loss limit hit" ∈
          (evaluate .Active decision snapshot policy prop reserved).reasons ↔
        ¬ (-policy.maxDailyLoss < snapshot.dailyPnLPercent)) ∧
      (snapshot.dailyPnLPercent = -(6/100) → policy.maxDailyLoss = 5/100 →
        (evaluate .Active decision snapshot policy prop reserved).approved = false ∧
        "daily loss limit hit" ∈
          (evaluate .Active decision snapshot policy prop reserved).reasons) := by
  intro decision snapshot policy prop reserved
  have hiff :
      "daily loss limit hit" ∈
          (evaluate .Active decision snapshot policy prop reserved).reasons ↔
        ¬ (-policy.maxDailyLoss < snapshot.dailyPnLPercent) := by
    rw [evaluate_active_reasons]
    exact mem_failedChecks_daily_loss decision snapshot policy prop reserved
  refine ⟨hiff, fun hp hm => ?_⟩
  have hhit : ¬ (-policy.maxDailyLoss < snapshot.dailyPnLPercent) := by
    rw [hp, hm]
    norm_num
  have hmem := hiff.mpr hhit
  refine ⟨?_, hmem⟩
  have hne : failedChecks decision snapshot policy prop reserved ≠ [] := by
    intro h0
    rw [evaluate_active_reasons, h0] at hmem
    simp at hmem
  rcases hb : (evaluate .Active decision snapshot policy prop reserved).approved with _ | _
  · rfl
  · exact absurd ((evaluate_active_approved decision snapshot policy prop reserved).mp hb) hne

/-- Witness for C4 at a concrete tick with daily P&L -6%, limit 5% and a
high-confidence Buy decision. -/
theorem riskGate_daily_loss_witness :
    (evaluate .Active { direction := .Buy, confidence := 99/100, summary := "s" }
        { balance := 10000, equity := 10000, freeMargin := 100000,
          openPositionsCount := 0, dailyPnL := -600, dailyPnLPercent := -(6/100),
          currentDrawdownPercent := 0 }
        { maxPositions := 3, riskPerTrade := 2/100, maxDailyLoss := 5/100,
          aiConfidenceThreshold := 65/100, drawdownLimit := 10/100 }
        { stopLossDistance := 50, pipValue := 10, marginPerLot := 100 } 0).approved =
        false ∧
      "daily loss limit hit" ∈
        (evaluate .Active { direction := .Buy, confidence := 99/100, summary := "s" }
          { balance := 10000, equity := 10000, freeMargin := 100000,
            openPositionsCount := 0, dailyPnL := -600, dailyPnLPercent := -(6/100),
            currentDrawdownPercent := 0 }
          { maxPositions := 3, riskPerTrade := 2/100, maxDailyLoss := 5/100,
            aiConfidenceThreshold := 65/100, drawdownLimit := 10/100 }
          { stopLossDistance := 50, pipValue := 10, marginPerLot := 100 } 0).reasons :=
  (riskGate_daily_loss { direction := .Buy, confidence := 99/100, summary := "s" }
    { balance := 10000, equity := 10000, freeMargin := 100000,
      openPositionsCount := 0, dailyPnL := -600, dailyPnLPercent := -(6/100),
      currentDrawdownPercent := 0 }
    { maxPositions := 3, riskPerTrade := 2/100, maxDailyLoss := 5/100,
      aiConfidenceThreshold := 65/100, drawdownLimit := 10/100 }
    { stopLossDistance := 50, pipValue := 10, marginPerLot := 100 } 0).2 rfl rfl

/-- Helper: for an eligible symbol the only check that can fail is the
position limit. -/
theorem failedChecks_of_eligible (d : Decision) (p : TradeProposal)
    (snapshot : AccountSnapshot) (policy : RiskPolicy) (reserved : ℕ)
    (h : Eligible snapshot policy (d, p)) :
    failedChecks d snapshot policy p reserved =
      if snapshot.openPositionsCount + reserved < policy.maxPositions then []
      else ["position limit reached"] := by
  obtain ⟨h1, h2, h3, h4, h5⟩ := h
  unfold failedChecks
  rw [if_pos h1, if_pos h2, if_pos h3, if_pos h4, if_pos h5]
  by_cases hp : snapshot.openPositionsCount + reserved < policy.maxPositions
  · rw [if_pos hp]
    rfl
  · rw [if_neg hp]
    rfl

/-- Helper: once the reservation count has exhausted the position budget,
every remaining eligible symbol of the tick is rejected with the single
reason "position limit reached". -/
theorem gateTickAux_exhausted (snapshot : AccountSnapshot) (policy : RiskPolicy)
    (inputs : List (Decision × TradeProposal)) (reserved : ℕ)
    (hall : ∀ x ∈ inputs, Eligible snapshot policy x)
    (hfull : policy.maxPositions ≤ snapshot.openPositionsCount + reserved) :
    gateTickAux .Active snapshot policy inputs reserved =
      inputs.map (fun _ =>
        { approved := false, lotSize := none, reasons := ["position limit reached"] }) := by
  induction inputs generalizing reserved with
  | nil => rfl
  | cons x rest ih =>
    obtain ⟨d, p⟩ := x
    have he : Eligible snapshot policy (d, p) := hall _ (List.mem_cons_self _ _)
    have hfc : failedChecks d snapshot policy p reserved = ["position limit reached"] := by
      rw [failedChecks_of_eligible d p snapshot policy reserved he,
        if_neg (not_lt.mpr hfull)]
    have hev : evaluate .Active d snapshot policy p reserved =
        { approved := false, lotSize := none, reasons := ["position limit reached"] } := by
      unfold evaluate
      rw [if_neg (by decide : ¬ (TradingState.Active = TradingState.Paused)),
        if_neg (by rw [hfc]; simp), hfc]
    show (evaluate .Active d snapshot policy p reserved) ::
        gateTickAux .Active snapshot policy rest
          (reserved + if (evaluate .Active d snapshot policy p reserved).approved then 1 else 0) =
      _
    rw [hev]
    simp only [Bool.false_eq_true, if_false, Nat.add_zero, List.map_cons]
    exact congrArg _ (ih reserved
      (fun y hy => hall y (List.mem_cons_of_mem _ hy)) hfull)

/-- C5: within one tick the gate's in-memory reservation count makes earlier
approvals count against the position limit: starting from two open positions
against a limit of three, the first eligible symbol is approved with its
computed lot size and every later eligible symbol of the tick is rejected
with reason "position limit reached". -/
theorem riskGate_tick_reservation :
    ∀ (snapshot : AccountSnapshot) (policy : RiskPolicy)
      (first : Decision × TradeProposal) (rest : List (Decision × TradeProposal)),
      snapshot.openPositionsCount = 2 → policy.maxPositions = 3 →
      (∀ x ∈ first :: rest, Eligible snapshot policy x) →
      gateTick .Active snapshot policy (first :: rest) =
        { approved := true, lotSize := some (lotSizeOf snapshot policy first.2),
            reasons := [] } ::
          rest.map (fun _ =>
            { approved := false, lotSize := none,
              reasons := ["position limit reached"] }) := by
  intro snapshot policy first rest h2 h3 hall
  obtain ⟨d, p⟩ := first
  have he : Eligible snapshot policy (d, p) := hall _ (List.mem_cons_self _ _)
  have hroom : snapshot.openPositionsCount + 0 < policy.maxPositions := by
    rw [h2, h3]
    norm_num
  have hfc : failedChecks d snapshot policy p 0 = [] := by
    rw [failedChecks_of_eligible d p snapshot policy 0 he, if_pos hroom]
  have hev : evaluate .Active d snapshot policy p 0 =
      { approved := true, lotSize := some (lotSizeOf snapshot policy p),
        reasons := [] } := by
    unfold evaluate
    rw [if_neg (by decide : ¬ (TradingState.Active = TradingState.Paused)), if_pos hfc]
  show (evaluate .Active d snapshot policy p 0) ::
      gateTickAux .Active snapshot policy rest
        (0 + if (evaluate .Active d snapshot policy p 0).approved then 1 else 0) = _
  rw [hev]
  simp only [if_true, Nat.zero_add]
  exact congrArg _ (gateTickAux_exhausted snapshot policy rest 1
    (fun y hy => hall y (List.mem_cons_of_mem _ hy))
    (by rw [h2, h3]))

/-- Witness for C5: two eligible symbols against two open positions and a
limit of three; the first is approved, the second rejected by the
reservation count. -/
theorem riskGate_tick_reservation_witness :
    gateTick .Active
        { balance := 10000, equity := 10000, freeMargin := 100000,
          openPositionsCount := 2, dailyPnL := 0, dailyPnLPercent := 0,
          currentDrawdownPercent := 0 }
        { maxPositions := 3, riskPerTrade := 2/100, maxDailyLoss := 5/100,
          aiConfidenceThreshold := 65/100, drawdownLimit := 10/100 }
        [({ direction := .Buy, confidence := 8/10, summary := "s" },
            { stopLossDistance := 50, pipValue := 10, marginPerLot := 100 }),
          ({ direction := .Buy, confidence := 8/10, summary := "s" },
            { stopLossDistance := 50, pipValue := 10, marginPerLot := 100 })] =
      [{ approved := true,
          lotSize := some (lotSizeOf
            { balance := 10000, equity := 10000, freeMargin := 100000,
              openPositionsCount := 2, dailyPnL := 0, dailyPnLPercent := 0,
              currentDrawdownPercent := 0 }
            { maxPositions := 3, riskPerTrade := 2/100, maxDailyLoss := 5/100,
              aiConfidenceThreshold := 65/100, drawdownLimit := 10/100 }
            { stopLossDistance := 50, pipValue := 10, marginPerLot := 100 }),
          reasons := [] },
        { approved := false, lotSize := none,
          reasons := ["position limit reached"] }] :=
  riskGate_tick_reservation
    { balance := 10000, equity := 10000, freeMargin := 100000,
      openPositionsCount := 2, dailyPnL := 0, dailyPnLPercent := 0,
      currentDrawdownPercent := 0 }
    { maxPositions := 3, riskPerTrade := 2/100, maxDailyLoss := 5/100,
      aiConfidenceThreshold := 65/100, drawdownLimit := 10/100 }
    ({ direction := .Buy, confidence := 8/10, summary := "s" },
      { stopLossDistance := 50, pipValue := 10, marginPerLot := 100 })
    [({ direction := .Buy, confidence := 8/10, summary := "s" },
      { stopLossDistance := 50, pipValue := 10, marginPerLot := 100 })]
    rfl rfl
    (by
      intro x hx
      have hx2 : x = ({ direction := .Buy, confidence := 8/10, summary := "s" },
          { stopLossDistance := 50, pipValue := 10, marginPerLot := 100 }) := by
        simp only [List.mem_cons, List.not_mem_nil, or_false] at hx
        rcases hx with h | h <;> exact h
      rw [hx2]
      refine ⟨by norm_num, by simp, by norm_num, by norm_num, ?_⟩
      norm_num [lotSizeOf])

/-- C6: every approved risk decision carries the deterministic lot size
equity times risk-per-trade over stop-loss distance times pip value, and that
lot size is linear in the policy's risk-per-trade: scaling risk-per-trade by
k scales the lot size by k, for fixed equity, stop-loss distance and pip
value. -/
theorem riskGate_lot_sizing :
    ∀ (state : TradingState) (decision : Decision) (snapshot : AccountSnapshot)
      (policy : RiskPolicy) (prop : TradeProposal) (reserved : ℕ) (k : ℚ),
      ((evaluate state decision snapshot policy prop reserved).approved = true →
        (evaluate state decision snapshot policy prop reserved).lotSize =
          some (snapshot.equity * policy.riskPerTrade /
            (prop.stopLossDistance * prop.pipValue))) ∧
      lotSizeOf snapshot { policy with riskPerTrade := k * policy.riskPerTrade } prop =
        k * lotSizeOf snapshot policy prop := by
  intro state decision snapshot policy prop reserved k
  constructor
  · intro happ
    cases state with
    | Paused => exact absurd happ (by rw [evaluate_paused]; simp)
    | Active =>
      have hfc := (evaluate_active_approved decision snapshot policy prop reserved).mp happ
      unfold evaluate
      rw [if_neg (by decide : ¬ (TradingState.Active = TradingState.Paused)), if_pos hfc]
      rfl
  · show snapshot.equity * (k * policy.riskPerTrade) /
        (prop.stopLossDistance * prop.pipValue) =
      k * (snapshot.equity * policy.riskPerTrade /
        (prop.stopLossDistance * prop.pipValue))
    rw [mul_left_comm, mul_div_assoc]

/-- Witness for C6 at a concrete approved decision: lot size
10000 × 0.02 / (50 × 10) as the sizing formula computes. -/
theorem riskGate_lot_sizing_witness :
    (evaluate .Active { direction := .Buy, confidence := 8/10, summary := "s" }
        { balance := 10000, equity := 10000, freeMargin := 100000,
          openPositionsCount := 0, dailyPnL := 0, dailyPnLPercent := 0,
          currentDrawdownPercent := 0 }
        { maxPositions := 3, riskPerTrade := 2/100, maxDailyLoss := 5/100,
          aiConfidenceThreshold := 65/100, drawdownLimit := 10/100 }
        { stopLossDistance := 50, pipValue := 10, marginPerLot := 100 } 0).lotSize =
      some ((10000 : ℚ) * (2/100) / (50 * 10)) :=
  (riskGate_lot_sizing .Active
    { direction := .Buy, confidence := 8/10, summary := "s" }
    { balance := 10000, equity := 10000, freeMargin := 100000,
      openPositionsCount := 0, dailyPnL := 0, dailyPnLPercent := 0,
      currentDrawdownPercent := 0 }
    { maxPositions := 3, riskPerTrade := 2/100, maxDailyLoss := 5/100,
      aiConfidenceThreshold := 65/100, drawdownLimit := 10/100 }
    { stopLossDistance := 50, pipValue := 10, marginPerLot := 100 } 0 1).1
    (by
      rw [evaluate_active_approved]
      norm_num [failedChecks, lotSizeOf]
      decide)

/-- Helper: the aggregator's explicit abstain value when every source
failed. -/
theorem aggregate_all_none (inp : AggInput) (h1 : inp.technical = none)
    (h2 : inp.sentiment = none) (h3 : inp.ai = none) :
    aggregate inp =
      { direction := .Neutral, confidence := 0,
        summary := "no signal sources available" } := by
  unfold aggregate
  rw [if_pos ⟨h1, h2, h3⟩]

/-- C2 (amended): when all three sources fail the aggregator returns the
explicit abstain decision (Neutral, confidence 0, summary "no signal sources
available"), and the risk gate rejects that decision for every trading state
and every policy; when the policy's confidence threshold is strictly
positive the rejection happens at the confidence check (it is the first
recorded reason).  With a zero threshold the confidence check passes and the
rejection happens at the direction check instead. -/
theorem aggregate_abstain_gate_rejects :
    ∀ (inp : AggInput) (state : TradingState) (snapshot : AccountSnapshot)
      (policy : RiskPolicy) (prop : TradeProposal) (reserved : ℕ),
      inp.technical = none → inp.sentiment = none → inp.ai = none →
      aggregate inp =
        { direction := .Neutral, confidence := 0,
          summary := "no signal sources available" } ∧
      (evaluate state (aggregate inp) snapshot policy prop reserved).approved = false ∧
      (0 < policy.aiConfidenceThreshold →
        (evaluate .Active (aggregate inp) snapshot policy prop reserved).reasons.head? =
          some "confidence below threshold") := by
  intro inp state snapshot policy prop reserved h1 h2 h3
  have habs := aggregate_all_none inp h1 h2 h3
  refine ⟨habs, ?_, ?_⟩
  · cases state with
    | Paused => rw [evaluate_paused]
    | Active =>
      have hmem : "no directional signal" ∈
          failedChecks (aggregate inp) snapshot policy prop reserved := by
        rw [habs]
        unfold failedChecks
        simp
      have hne : failedChecks (aggregate inp) snapshot policy prop reserved ≠ [] :=
        List.ne_nil_of_mem hmem
      rcases hb : (evaluate .Active (aggregate inp) snapshot policy prop reserved).approved
        with _ | _
      · rfl
      · exact absurd
          ((evaluate_active_approved (aggregate inp) snapshot policy prop reserved).mp hb)
          hne
  · intro hth
    rw [evaluate_active_reasons, habs]
    unfold failedChecks
    rw [if_neg (by simpa using hth), if_neg (by simp)]
    rfl

/-- Witness for C2's amended statement at a concrete positive-threshold
policy. -/
theorem aggregate_abstain_gate_rejects_witness :
    aggregate { technical := none, sentiment := none, ai := none } =
      { direction := .Neutral, confidence := 0,
        summary := "no signal sources available" } ∧
    (evaluate .Active (aggregate { technical := none, sentiment := none, ai := none })
        { balance := 10000, equity := 10000, freeMargin := 100000,
          openPositionsCount := 0, dailyPnL := 0, dailyPnLPercent := 0,
          currentDrawdownPercent := 0 }
        { maxPositions := 3, riskPerTrade := 2/100, maxDailyLoss := 5/100,
          aiConfidenceThreshold := 65/100, drawdownLimit := 10/100 }
        { stopLossDistance := 50, pipValue := 10, marginPerLot := 100 } 0).approved =
      false ∧
    (evaluate .Active (aggregate { technical := none, sentiment := none, ai := none })
        { balance := 10000, equity := 10000, freeMargin := 100000,
          openPositionsCount := 0, dailyPnL := 0, dailyPnLPercent := 0,
          currentDrawdownPercent := 0 }
        { maxPositions := 3, riskPerTrade := 2/100, maxDailyLoss := 5/100,
          aiConfidenceThreshold := 65/100, drawdownLimit := 10/100 }
        { stopLossDistance := 50, pipValue := 10, marginPerLot := 100 } 0).reasons.head? =
      some "confidence below threshold" := by
  have h := aggregate_abstain_gate_rejects
    { technical := none, sentiment := none, ai := none } .Active
    { balance := 10000, equity := 10000, freeMargin := 100000,
      openPositionsCount := 0, dailyPnL := 0, dailyPnLPercent := 0,
      currentDrawdownPercent := 0 }
    { maxPositions := 3, riskPerTrade := 2/100, maxDailyLoss := 5/100,
      aiConfidenceThreshold := 65/100, drawdownLimit := 10/100 }
    { stopLossDistance := 50, pipValue := 10, marginPerLot := 100 } 0 rfl rfl rfl
  exact ⟨h.1, h.2.1, h.2.2 (by norm_num)⟩

/-- Counterexample to C2 as stated: with a zero confidence threshold (allowed
by the policy's domain [0,1]) the abstain decision passes the confidence
check (0 is not below a zero threshold) and the gate rejects at the
direction check instead, so the rejection is not at the confidence check. -/
theorem aggregate_abstain_confidence_counterexample :
    (evaluate .Active (aggregate { technical := none, sentiment := none, ai := none })
        { balance := 10000, equity := 10000, freeMargin := 100000,
          openPositionsCount := 0, dailyPnL := 0, dailyPnLPercent := 0,
          currentDrawdownPercent := 0 }
        { maxPositions := 3, riskPerTrade := 2/100, maxDailyLoss := 5/100,
          aiConfidenceThreshold := 0, drawdownLimit := 10/100 }
        { stopLossDistance := 50, pipValue := 10, marginPerLot := 100 } 0).reasons =
      ["no directional signal"] ∧
    (evaluate .Active (aggregate { technical := none, sentiment := none, ai := none })
        { balance := 10000, equity := 10000, freeMargin := 100000,
          openPositionsCount := 0, dailyPnL := 0, dailyPnLPercent := 0,
          currentDrawdownPercent := 0 }
        { maxPositions := 3, riskPerTrade := 2/100, maxDailyLoss := 5/100,
          aiConfidenceThreshold := 0, drawdownLimit := 10/100 }
        { stopLossDistance := 50, pipValue := 10, marginPerLot := 100 } 0).reasons.head? ≠
      some "confidence below threshold" := by
  have habs := aggregate_all_none { technical := none, sentiment := none, ai := none }
    rfl rfl rfl
  have hr : (evaluate .Active
      (aggregate { technical := none, sentiment := none, ai := none })
      { balance := 10000, equity := 10000, freeMargin := 100000,
        openPositionsCount := 0, dailyPnL := 0, dailyPnLPercent := 0,
        currentDrawdownPercent := 0 }
      { maxPositions := 3, riskPerTrade := 2/100, maxDailyLoss := 5/100,
        aiConfidenceThreshold := 0, drawdownLimit := 10/100 }
      { stopLossDistance := 50, pipValue := 10, marginPerLot := 100 } 0).reasons =
      ["no directional signal"] := by
    rw [evaluate_active_reasons, habs]
    norm_num [failedChecks, lotSizeOf]
  refine ⟨hr, ?_⟩
  rw [hr]
  simp

/-- Helper: advancing from any non-Idle phase strictly decreases the number
of advances left in the cycle. -/
theorem phaseMeasure_decreasing (N : ℕ) (c : Ctrl) (h : c.phase ≠ .Idle) :
    phaseMeasure N (step N c .Advance).phase < phaseMeasure N c.phase := by
  cases hp : c.phase with
  | Idle => exact absurd hp h
  | Scanning =>
    simp only [step, hp, phaseMeasure]
    omega
  | Gating k =>
    simp only [step, hp]
    by_cases hk : k + 1 < N
    · rw [if_pos hk]
      simp only [phaseMeasure]
      omega
    · rw [if_neg hk]
      simp only [phaseMeasure]
      omega
  | Dispatching =>
    simp only [step, hp, phaseMeasure]
    omega

/-- Helper: a phase with no advances left is Idle. -/
theorem phase_of_measure_zero (N : ℕ) (p : Phase) (h : phaseMeasure N p = 0) :
    p = .Idle := by
  cases p with
  | Idle => rfl
  | Scanning => simp [phaseMeasure] at h
  | Gating k =>
    simp [phaseMeasure] at h
  | Dispatching => simp [phaseMeasure] at h

/-- Helper: from any controller state, repeatedly advancing returns the
cycle to Idle within the phase measure's number of steps. -/
theorem reach_idle (N : ℕ) :
    ∀ (m : ℕ) (c : Ctrl), phaseMeasure N c.phase ≤ m →
      ∃ n, n ≤ phaseMeasure N c.phase ∧
        ((fun s => step N s .Advance)^[n] c).phase = .Idle := by
  intro m
  induction m with
  | zero =>
    intro c hc
    exact ⟨0, Nat.zero_le _,
      phase_of_measure_zero N c.phase (Nat.le_zero.mp hc)⟩
  | succ m ih =>
    intro c hc
    by_cases h : c.phase = .Idle
    · exact ⟨0, Nat.zero_le _, h⟩
    · have hd := phaseMeasure_decreasing N c h
      obtain ⟨n, hn, hidle⟩ := ih (step N c .Advance) (by omega)
      refine ⟨n + 1, by omega, ?_⟩
      rw [Function.iterate_succ_apply]
      exact hidle

/-- C8: a stop command never changes the controller's phase (it only writes
the trading-state cell); the only way back to Idle is through Dispatching, so
no event truncates an in-flight cycle's per-symbol processing; mid-cycle
progress is independent of the trading-state cell; a stop observed at Idle
prevents the next cycle from starting; and every started cycle runs to
completion back to Idle in a bounded number of advances. -/
theorem controller_stop_at_boundary :
    ∀ (N : ℕ) (c : Ctrl) (e : Event),
      ((step N c .StopCmd).phase = c.phase ∧
        (step N c .StopCmd).trading = .Paused) ∧
      (c.phase ≠ .Idle → (step N c e).phase = .Idle → c.phase = .Dispatching) ∧
      (c.phase ≠ .Idle →
        (step N { phase := c.phase, trading := .Paused } .Advance).phase =
          (step N c .Advance).phase) ∧
      (c.phase = .Idle → c.trading = .Paused → step N c .Advance = c) ∧
      (c.phase ≠ .Idle → ∃ n, n ≤ N + 3 ∧
        ((fun s => step N s .Advance)^[n] c).phase = .Idle) := by
  intro N c e
  refine ⟨⟨rfl, rfl⟩, ?_, ?_, ?_, ?_⟩
  · intro h hidle
    cases e with
    | StopCmd => exact absurd hidle h
    | StartCmd => exact absurd hidle h
    | Advance =>
      cases hp : c.phase with
      | Idle => exact absurd hp h
      | Scanning =>
        rw [show (step N c .Advance).phase = Phase.Gating 0 by
          simp only [step, hp]] at hidle
        exact absurd hidle (by simp)
      | Gating k =>
        simp only [step, hp] at hidle
        by_cases hk : k + 1 < N
        · rw [if_pos hk] at hidle
          exact absurd hidle (by simp)
        · rw [if_neg hk] at hidle
          exact absurd hidle (by simp)
      | Dispatching => rfl
  · intro h
    cases hp : c.phase with
    | Idle => exact absurd hp h
    | Scanning => simp only [step, hp]
    | Gating k =>
      simp only [step, hp]
      by_cases hk : k + 1 < N
      · rw [if_pos hk, if_pos hk]
      · rw [if_neg hk, if_neg hk]
    | Dispatching => simp only [step, hp]
  · intro h1 h2
    simp only [step, h1, h2]
    rw [if_neg (by decide : ¬ (TradingState.Paused = TradingState.Active))]
  · intro h
    have hb : phaseMeasure N c.phase ≤ N + 3 := by
      cases c.phase with
      | Idle => simp [phaseMeasure]
      | Scanning => simp [phaseMeasure]
      | Gating k =>
        simp only [phaseMeasure]
        omega
      | Dispatching =>
        simp only [phaseMeasure]
        omega
    obtain ⟨n, hn, hi⟩ := reach_idle N (phaseMeasure N c.phase) c le_rfl
    exact ⟨n, le_trans hn hb, hi⟩

/-- Witness for C8: a stopped controller caught mid-cycle (Gating, trading
already Paused) still reaches Idle within the bound, and a paused controller
at Idle does not start the next cycle. -/
theorem controller_stop_at_boundary_witness :
    (∃ n, n ≤ 1 + 3 ∧
      ((fun s => step 1 s .Advance)^[n]
        { phase := .Gating 0, trading := .Paused }).phase = .Idle) ∧
    step 1 { phase := .Idle, trading := .Paused } .Advance =
      { phase := .Idle, trading := .Paused } :=
  ⟨(controller_stop_at_boundary 1 { phase := .Gating 0, trading := .Paused }
      .Advance).2.2.2.2 (by decide),
    (controller_stop_at_boundary 1 { phase := .Idle, trading := .Paused }
      .Advance).2.2.2.1 rfl rfl⟩

end TradingBot



